import Mathlib

/-!
Verification of the LSP-copilot session coordination engine.

The definitions below are a shallow embedding of `src/plugin/client.py` and
`src/plugin/version_manager.py`.  Per-view and per-window manager state
(`ViewCompletionManager`, `ViewPanelCompletionManager`,
`WindowConversationManager` from the `ui` module, which is not part of the
sources provided) is modelled from the spec's data model: each manager is a
record, and the reverse indices `panelId -> view` and `token -> window` are
association lists.  Effects (protocol requests sent, responses delivered,
directories deleted) are made explicit in the return values.
-/

/-- Assoc-list update: apply `f` to every entry whose key equals `k`. -/
def update_assoc {α : Type} : List (Nat × α) → Nat → (α → α) → List (Nat × α)
  | [], _, _ => []
  | p :: t, k, f => (if p.1 = k then (p.1, f p.2) else p) :: update_assoc t k f

/-- Python truthiness of an optional string: present and nonempty. -/
def truthy : Option String → Bool
  | some s => !(s == "")
  | none => false

/-! ## Account State (client.py 105-108, 238-247, 262-286) -/

/-- `AccountStatus` from `types.py` as used by `client.py`: sign-in flag,
authorization flag and optional user name. -/
structure AccountStatus where
  has_signed_in : Bool
  is_authorized : Bool
  user : Option String
deriving DecidableEq

/-- `CopilotPlugin.set_account_status` (client.py 262-286): each field is
updated only when the corresponding argument is not `None`.  The avatar fetch
and the status message are external side effects and are not modelled. -/
def set_account_status (st : AccountStatus) (signed_in : Option Bool)
    (authorized : Option Bool) (user : Option String) : AccountStatus :=
  let st1 := match signed_in with
    | some b => { st with has_signed_in := b }
    | none => st
  let st2 := match authorized with
    | some b => { st1 with is_authorized := b }
    | none => st1
  match user with
  | some u => { st2 with user := some u }
  | none => st2

/-- `_on_check_status` (client.py 238-244): the status-check reply handler
derives both flags from the reply's `status` string. -/
def on_check_status (st : AccountStatus) (status : String) (user : Option String) :
    AccountStatus :=
  set_account_status st (some (status == "NotAuthorized" || status == "OK"))
    (some (status == "OK")) user

/-! ## Panel Completion Session (client.py 390-408) -/

/-- A `copilotPanelCompletion` notification payload: the routing key and the
solution item it carries. -/
structure PanelPayload where
  panelId : String
  item : String
deriving DecidableEq

/-- Modelled from the spec: `ViewPanelCompletionManager` (the `ui` module is
not among the sources) holds the ordered solution sequence and the waiting
flag of one panel session. -/
structure ViewPanelCompletionManager where
  is_waiting : Bool
  completions : List PanelPayload
deriving DecidableEq

/-- The global panel-session state: the reverse index `panelId -> view id`
kept by `ViewPanelCompletionManager.find_view_by_panel_id`, and each view's
panel manager record. -/
structure PanelState where
  bindings : List (String × Nat)
  vcms : List (Nat × ViewPanelCompletionManager)
deriving DecidableEq

/-- `ViewPanelCompletionManager.find_view_by_panel_id`, modelled from the
spec as a reverse-index lookup. -/
def find_view_by_panel_id (st : PanelState) (pid : String) : Option Nat :=
  st.bindings.lookup pid

/-- `_handle_panel_solution_notification` (client.py 390-399): look the view
up by panel id; on a miss return with no mutation, otherwise append the
payload to the view's solution sequence.  `preprocess_panel_completions`
normalises positions in place and is abstracted away. -/
def handle_panel_solution_notification (st : PanelState) (payload : PanelPayload) :
    PanelState :=
  match find_view_by_panel_id st payload.panelId with
  | none => st
  | some vid =>
    { st with
      vcms := update_assoc st.vcms vid
        (fun v => { v with completions := v.completions ++ [payload] }) }

/-- `_handle_panel_solution_done_notification` (client.py 401-408): look the
view up by panel id; on a miss return with no mutation, otherwise clear the
waiting flag.  Nothing else is touched. -/
def handle_panel_solution_done_notification (st : PanelState) (pid : String) :
    PanelState :=
  match find_view_by_panel_id st pid with
  | none => st
  | some vid =>
    { st with vcms := update_assoc st.vcms vid (fun v => { v with is_waiting := false }) }

/-! ## Conversation Session (client.py 351-372) -/

/-- The `value` object of a `$/progress` notification, with the four fields
the handler inspects.  `followUp` carries its `message` string when the
follow-up object is present. -/
structure ProgressPayload where
  kind : Option String
  suggestedTitle : Option String
  reply : Option String
  followUp : Option String
deriving DecidableEq

/-- Modelled from the spec: `WindowConversationManager` (the `ui` module is
not among the sources) holds one window's conversation session: the waiting
flag, the suggested title, the ordered turn sequence and the follow-up
prompt. -/
structure WindowConversationManager where
  is_waiting : Bool
  suggested_title : String
  conversation : List ProgressPayload
  follow_up : String
deriving DecidableEq

/-- The global conversation state: the reverse index `token -> window id`
kept by `WindowConversationManager.find_window_by_token_id`, and each
window's conversation manager record. -/
structure ConvState where
  bindings : List (String × Nat)
  wcms : List (Nat × WindowConversationManager)
deriving DecidableEq

/-- `WindowConversationManager.find_window_by_token_id`, modelled from the
spec as a reverse-index lookup. -/
def find_window_by_token_id (st : ConvState) (token : String) : Option Nat :=
  st.bindings.lookup token

/-- `token.startswith(...)` translated over the underlying character
lists. -/
def str_starts_with (s pre : String) : Bool :=
  pre.data.isPrefixOf s.data

/-- Step of client.py 359-360: `kind == "end"` clears the waiting flag. -/
def progress_step_end (w : WindowConversationManager) (p : ProgressPayload) :
    WindowConversationManager :=
  if p.kind == some "end" then { w with is_waiting := false } else w

/-- Step of client.py 362-363: a truthy `suggestedTitle` overwrites the
title. -/
def progress_step_title (w : WindowConversationManager) (p : ProgressPayload) :
    WindowConversationManager :=
  match p.suggestedTitle with
  | some t => if t == "" then w else { w with suggested_title := t }
  | none => w

/-- Step of client.py 365-366: a truthy `reply` appends the payload as a
conversation entry. -/
def progress_step_reply (w : WindowConversationManager) (p : ProgressPayload) :
    WindowConversationManager :=
  if truthy p.reply then { w with conversation := w.conversation ++ [p] } else w

/-- Step of client.py 368-370: a present `followUp` overwrites the
follow-up message with its `message` field. -/
def progress_step_follow (w : WindowConversationManager) (p : ProgressPayload) :
    WindowConversationManager :=
  match p.followUp with
  | some m => { w with follow_up := m }
  | none => w

/-- The body of `on_server_notification_async` applied to one window's
manager (client.py 359-371), in source order.  No step consults
`is_waiting`. -/
def apply_progress (w : WindowConversationManager) (p : ProgressPayload) :
    WindowConversationManager :=
  progress_step_follow (progress_step_reply (progress_step_title (progress_step_end w p) p) p) p

/-- `on_server_notification_async` for method `$/progress`
(client.py 351-372): the guard requires the token to carry the
`copilot_chat://` prefix, the `value` to be truthy and the token to resolve
to a window; only then is that window's manager updated.  `value = none`
models a falsy `value`. -/
def on_server_notification_async (st : ConvState) (token : String)
    (value : Option ProgressPayload) : ConvState :=
  if str_starts_with token "copilot_chat://" then
    match value with
    | some params =>
      match find_window_by_token_id st token with
      | some wid => { st with wcms := update_assoc st.wcms wid (fun w => apply_progress w params) }
      | none => st
    | none => st
  else st

/-! ## Completion Session (client.py 438-496) -/

/-- One `CompletionSet` as displayed for a surface: the items and the
selected index. -/
structure CompletionSet where
  items : List String
  selectedIndex : Nat
deriving DecidableEq

/-- Modelled from the spec: `ViewCompletionManager` (the `ui` module is not
among the sources) holds the in-flight flag and the currently displayed
completion set (`none` when hidden). -/
structure ViewCompletionManager where
  is_waiting : Bool
  shown : Option CompletionSet
deriving DecidableEq

/-- Modelled from the spec: `ViewCompletionManager.hide` clears the
displayed completion set. -/
def ViewCompletionManager.hide (v : ViewCompletionManager) : ViewCompletionManager :=
  { v with shown := none }

/-- Modelled from the spec: `ViewCompletionManager.show` replaces the
displayed completion set with the new items, selected index 0. -/
def ViewCompletionManager.show (v : ViewCompletionManager) (items : List String) :
    ViewCompletionManager :=
  { v with shown := some { items := items, selectedIndex := 0 } }

/-- `REQ_GET_COMPLETIONS` from `constants.py` (module not among the sources;
named in the spec's external-interface list). -/
def REQ_GET_COMPLETIONS : String := "getCompletions"

/-- `REQ_GET_COMPLETIONS_CYCLING` from `constants.py` (module not among the
sources; named in the spec's external-interface list). -/
def REQ_GET_COMPLETIONS_CYCLING : String := "getCompletionsCycling"

/-- A request handed to `session.send_request_async`: the method, the
document, whether the real completion callback is attached, and the
selection region recorded for the staleness check when it is. -/
structure SentReq where
  method : String
  doc : String
  has_callback : Bool
  region : Option (Int × Int)
deriving DecidableEq

/-- The state a completion trigger reads: the view's completion manager,
whether `weaksession()` is live, the account status, the view's selection
regions, and the result of `prepare_completion_request_doc` (a helper not
among the sources, abstracted as an optional document). -/
structure TriggerState where
  vcm : ViewCompletionManager
  session_alive : Bool
  account : AccountStatus
  sel : List (Int × Int)
  doc : Option String
deriving DecidableEq

/-- The outcome of a completion trigger: the view's completion manager
afterwards, the protocol requests sent, and whether the activity indicator
was started. -/
structure TriggerResult where
  vcm : ViewCompletionManager
  sent : List SentReq
  indicator_started : Bool
deriving DecidableEq

/-- `_request_completions` (client.py 444-467): hide the shown set first,
then no-op unless the session is live, the account is signed in and
authorized, and there is exactly one selection; then no-op if no document
can be prepared; otherwise send the request, recording the selection region
and setting the waiting flag only when a callback is attached. -/
def request_completions (st : TriggerState) (method : String) (no_callback : Bool) :
    TriggerResult :=
  let vcm := st.vcm.hide
  if st.session_alive && st.account.has_signed_in && st.account.is_authorized
      && (st.sel.length == 1) then
    match st.doc with
    | none => { vcm := vcm, sent := [], indicator_started := false }
    | some doc =>
      if no_callback then
        { vcm := vcm,
          sent := [{ method := method, doc := doc, has_callback := false, region := none }],
          indicator_started := false }
      else
        { vcm := { vcm with is_waiting := true },
          sent := [{ method := method, doc := doc, has_callback := true, region := st.sel.head? }],
          indicator_started := true }
  else { vcm := vcm, sent := [], indicator_started := false }

/-- `request_get_completions` (client.py 438-442), past its view guard and
debounce: call `_request_completions` for the primary request with
`no_callback = true`, then for the cycling request with the callback. -/
def request_get_completions (st : TriggerState) : TriggerResult :=
  let r1 := request_completions st REQ_GET_COMPLETIONS true
  let r2 := request_completions { st with vcm := r1.vcm } REQ_GET_COMPLETIONS_CYCLING false
  { vcm := r2.vcm, sent := r1.sent ++ r2.sent,
    indicator_started := r1.indicator_started || r2.indicator_started }

/-- What `_on_get_completions` does beyond mutating the manager:
`re_request` marks the call to `self.request_get_completions(view)`,
`shown_items` marks `vcm.show` with the delivered completions, `dropped`
marks an early return. -/
inductive CompletionsOutcome where
  | dropped
  | re_request
  | shown_items (items : List String)
deriving DecidableEq

/-- The state `_on_get_completions` reads at delivery time: the view's
completion manager, whether `weaksession()` is live, and the view's live
selection regions. -/
structure DeliveryState where
  vcm : ViewCompletionManager
  session_alive : Bool
  sel : List (Int × Int)
deriving DecidableEq

/-- `_on_get_completions` (client.py 469-496): clear the waiting flag; drop
if the session is gone or the selection is not single; if the live region
differs from the recorded one, re-trigger `request_get_completions` instead
of displaying; drop an empty reply; otherwise show the completions. -/
def on_get_completions (st : DeliveryState) (completions : List String)
    (region : Int × Int) : ViewCompletionManager × CompletionsOutcome :=
  let vcm := { st.vcm with is_waiting := false }
  if st.session_alive then
    match st.sel with
    | [r] =>
      if r ≠ region then (vcm, .re_request)
      else if completions.isEmpty then (vcm, .dropped)
      else (vcm.show completions, .shown_items completions)
    | _ => (vcm, .dropped)
  else (vcm, .dropped)

/-! ## Conversation context request (client.py 416-436) -/

/-- What the context-request handler can see of the live session: the
window, when `session.window` is truthy. -/
structure SessionInfo where
  window : Option Nat
deriving DecidableEq

/-- The state `_handle_conversation_context_request` reads: the result of
`weaksession()` (`none` when the session has been released), each window's
`last_active_view_id`, and for each view id the result of
`prepare_completion_request_doc` (`none` when no document can be built;
a missing key models `find_view_by_id` failing). -/
structure ContextState where
  session : Option SessionInfo
  last_active : List (Nat × Nat)
  views : List (Nat × Option String)
deriving DecidableEq

/-- The walrus chain of client.py 427-432: resolve the window, its
conversation manager's last active view, and a context document from that
view; `none` when any link fails. -/
def resolve_context_doc (st : ContextState) (sess : SessionInfo) : Option String :=
  match sess.window with
  | none => none
  | some w =>
    match st.last_active.lookup w with
    | none => none
    | some vid =>
      match st.views.lookup vid with
      | none => none
      | some d => d

/-- `_handle_conversation_context_request` (client.py 416-436), returning
the list of `respond` invocations in order: return without responding when
`weaksession()` is gone; respond with the resolved document when
`skillId == "current-editor"` and the whole chain resolves; respond with
`None` otherwise. -/
def handle_conversation_context_request (st : ContextState) (skillId : String) :
    List (Option String) :=
  match st.session with
  | none => []
  | some sess =>
    if skillId == "current-editor" then
      match resolve_context_doc st sess with
      | some d => [some d]
      | none => [none]
    else [none]

/-! ## Version/Install Manager (version_manager.py 69-87, client.py 156-175) -/

/-- The observable install state: the contents at the computed versioned
binary path (`cls.server_path()` resp. `version_manager.server_path`),
`none` when no file exists there. -/
structure InstallFS where
  binary : Option String
deriving DecidableEq

/-- One install run's trace: the resulting state, how many network fetches
were performed (`simple_urlopen` calls) and how many directory deletions
(`rmtree_ex` calls). -/
structure InstallTrace where
  fs : InstallFS
  fetches : Nat
  rmtree_calls : Nat
deriving DecidableEq

/-- `CopilotPlugin.needs_update_or_installation` (client.py 157-158): true
iff the server binary is not a file at the versioned path. -/
def needs_update_or_installation (fs : InstallFS) : Bool :=
  fs.binary.isNone

/-- `CopilotPlugin.install_or_update` (client.py 161-175): fetch the
tarball; on a download error log and return with the state untouched;
otherwise delete the plugin storage directory and extract into the
versioned directory.  `downloaded = none` injects a network failure,
`extract_ok = false` an extraction failure.  `decompress_buffer` is not
among the sources; modelled from the spec: extraction is all-or-nothing at
the final binary path, so a failed extraction writes nothing there. -/
def install_or_update (fs : InstallFS) (downloaded : Option String)
    (extract_ok : Bool) : InstallTrace :=
  match downloaded with
  | none => { fs := fs, fetches := 1, rmtree_calls := 0 }
  | some data =>
    let fs1 : InstallFS := { binary := none }
    if extract_ok then { fs := { binary := some data }, fetches := 1, rmtree_calls := 1 }
    else { fs := fs1, fetches := 1, rmtree_calls := 1 }

/-- `VersionManager.install_server` (version_manager.py 74-87): delete the
plugin storage directory first (removing any old versions), then fetch the
tarball (an error propagates, leaving the directory deleted), then extract
into the versioned directory and mark the binary executable.  As above,
extraction is modelled from the spec as all-or-nothing at the binary
path. -/
def install_server (_fs : InstallFS) (downloaded : Option String)
    (extract_ok : Bool) : InstallTrace :=
  let fs1 : InstallFS := { binary := none }
  match downloaded with
  | none => { fs := fs1, fetches := 1, rmtree_calls := 1 }
  | some data =>
    if extract_ok then { fs := { binary := some data }, fetches := 1, rmtree_calls := 1 }
    else { fs := fs1, fetches := 1, rmtree_calls := 1 }

/-- Modelled from the spec: the LSP host (an external collaborator, not
among the sources) drives the install pipeline by calling
`install_or_update` only when `needs_update_or_installation` is true —
"`install()`: if already installed, no-op (idempotent)". -/
def host_install_pipeline (fs : InstallFS) (downloaded : Option String)
    (extract_ok : Bool) : InstallTrace :=
  if needs_update_or_installation fs then install_or_update fs downloaded extract_ok
  else { fs := fs, fetches := 0, rmtree_calls := 0 }

/-! ## Helper lemmas -/

theorem update_assoc_cons_pos {α : Type} (a : Nat) (b : α) (t : List (Nat × α))
    (k : Nat) (f : α → α) (h : a = k) :
    update_assoc ((a, b) :: t) k f = (a, f b) :: update_assoc t k f := by
  simp only [update_assoc]
  rw [if_pos h]

theorem update_assoc_cons_neg {α : Type} (a : Nat) (b : α) (t : List (Nat × α))
    (k : Nat) (f : α → α) (h : ¬a = k) :
    update_assoc ((a, b) :: t) k f = (a, b) :: update_assoc t k f := by
  simp only [update_assoc]
  rw [if_neg h]

theorem lookup_update_assoc {α : Type} (l : List (Nat × α)) (k : Nat) (f : α → α) :
    (update_assoc l k f).lookup k = (l.lookup k).map f := by
  induction l with
  | nil => rfl
  | cons p t ih =>
    obtain ⟨a, b⟩ := p
    by_cases h : a = k
    · subst h
      rw [update_assoc_cons_pos a b t a f rfl]
      simp [List.lookup]
    · have hbeq : (k == a) = false := beq_eq_false_iff_ne.mpr (Ne.symm h)
      rw [update_assoc_cons_neg a b t k f h]
      simp only [List.lookup, hbeq]
      exact ih

theorem update_assoc_idem {α : Type} (l : List (Nat × α)) (k : Nat) (f : α → α)
    (hf : ∀ x, f (f x) = f x) :
    update_assoc (update_assoc l k f) k f = update_assoc l k f := by
  induction l with
  | nil => rfl
  | cons p t ih =>
    obtain ⟨a, b⟩ := p
    by_cases h : a = k
    · rw [update_assoc_cons_pos a b t k f h, update_assoc_cons_pos a (f b) _ k f h, hf, ih]
    · rw [update_assoc_cons_neg a b t k f h, update_assoc_cons_neg a b _ k f h, ih]

theorem progress_step_end_conversation (w : WindowConversationManager) (p : ProgressPayload) :
    (progress_step_end w p).conversation = w.conversation := by
  unfold progress_step_end
  split <;> rfl

theorem progress_step_title_conversation (w : WindowConversationManager) (p : ProgressPayload) :
    (progress_step_title w p).conversation = w.conversation := by
  unfold progress_step_title
  split
  · split <;> rfl
  · rfl

theorem progress_step_follow_conversation (w : WindowConversationManager) (p : ProgressPayload) :
    (progress_step_follow w p).conversation = w.conversation := by
  unfold progress_step_follow
  split <;> rfl

theorem apply_progress_conversation (w : WindowConversationManager) (p : ProgressPayload)
    (hr : truthy p.reply = true) :
    (apply_progress w p).conversation = w.conversation ++ [p] := by
  unfold apply_progress progress_step_reply
  rw [progress_step_follow_conversation, hr]
  simp only [if_pos]
  rw [progress_step_title_conversation, progress_step_end_conversation]

/-! ## Claim theorems -/

/-- C5: for every status-check reply with status field `s`, the account
status is updated so that `has_signed_in = (s ∈ {NotAuthorized, OK})` and
`is_authorized = (s == OK)`; in particular a `NotAuthorized` reply yields
signed-in but not authorized. -/
theorem check_status_reply_sets_account_flags (st : AccountStatus) (status : String)
    (user : Option String) :
    (on_check_status st status user).has_signed_in
        = (status == "NotAuthorized" || status == "OK")
    ∧ (on_check_status st status user).is_authorized = (status == "OK")
    ∧ (on_check_status st "NotAuthorized" user).has_signed_in = true
    ∧ (on_check_status st "NotAuthorized" user).is_authorized = false := by
  cases user <;> exact ⟨rfl, rfl, rfl, rfl⟩

/-- C7: the panel-done notification is idempotent — after one `onDone` the
bound session's `is_waiting` is false, and a second `onDone` for the same
panel id leaves the whole panel state identical to the state after the
first call. -/
theorem panel_done_idempotent (st : PanelState) (pid : String) :
    (∀ vid v, st.bindings.lookup pid = some vid → st.vcms.lookup vid = some v →
      ((handle_panel_solution_done_notification st pid).vcms.lookup vid).map
        (fun w => w.is_waiting) = some false)
    ∧ handle_panel_solution_done_notification
        (handle_panel_solution_done_notification st pid) pid
      = handle_panel_solution_done_notification st pid := by
  constructor
  · intro vid v hb hv
    unfold handle_panel_solution_done_notification find_view_by_panel_id
    rw [hb]
    simp [lookup_update_assoc, hv]
  · unfold handle_panel_solution_done_notification find_view_by_panel_id
    cases h : st.bindings.lookup pid with
    | none => simp [h]
    | some vid =>
      simp only [h]
      exact congrArg (fun l => PanelState.mk st.bindings l)
        (update_assoc_idem st.vcms vid _ (fun v => rfl))

/-- Witness for C7 at a concrete one-panel waiting state: after one done
the flag is false, and a repeated done leaves the state identical. -/
theorem panel_done_idempotent_witness :
    ((handle_panel_solution_done_notification
        (PanelState.mk [("p2", 4)] [(4, ViewPanelCompletionManager.mk true [PanelPayload.mk "p2" "A"])])
        "p2").vcms.lookup 4).map (fun w => w.is_waiting) = some false
    ∧ handle_panel_solution_done_notification
        (handle_panel_solution_done_notification
          (PanelState.mk [("p2", 4)] [(4, ViewPanelCompletionManager.mk true [PanelPayload.mk "p2" "A"])])
          "p2") "p2"
      = handle_panel_solution_done_notification
          (PanelState.mk [("p2", 4)] [(4, ViewPanelCompletionManager.mk true [PanelPayload.mk "p2" "A"])])
          "p2" :=
  ⟨(panel_done_idempotent
      (PanelState.mk [("p2", 4)] [(4, ViewPanelCompletionManager.mk true [PanelPayload.mk "p2" "A"])])
      "p2").1 4 (ViewPanelCompletionManager.mk true [PanelPayload.mk "p2" "A"]) rfl rfl,
   (panel_done_idempotent
      (PanelState.mk [("p2", 4)] [(4, ViewPanelCompletionManager.mk true [PanelPayload.mk "p2" "A"])])
      "p2").2⟩

/-- C4: a panel-solution notification whose panel id has no registered
session, and a progress notification whose token lacks the conversation
prefix or does not resolve to a bound window, are dropped without mutating
any session state. -/
theorem unknown_routing_keys_do_not_mutate (pst : PanelState) (payload : PanelPayload)
    (cst : ConvState) (token : String) (value : Option ProgressPayload) :
    (find_view_by_panel_id pst payload.panelId = none →
      handle_panel_solution_notification pst payload = pst)
    ∧ ((str_starts_with token "copilot_chat://" = false
          ∨ find_window_by_token_id cst token = none) →
      on_server_notification_async cst token value = cst) := by
  constructor
  · intro h
    unfold handle_panel_solution_notification
    rw [h]
  · intro h
    unfold on_server_notification_async
    rcases h with h | h
    · rw [h]
      simp
    · cases hp : str_starts_with token "copilot_chat://"
      · simp
      · simp only [if_pos]
        cases value with
        | none => rfl
        | some params => rw [h]

/-- Witness for C4 at a concrete empty state: an unregistered panel id and
an unbound token leave the states untouched. -/
theorem unknown_routing_keys_do_not_mutate_witness :
    handle_panel_solution_notification (PanelState.mk [] []) (PanelPayload.mk "p1" "sol")
        = PanelState.mk [] []
    ∧ on_server_notification_async (ConvState.mk [] []) "copilot_chat://1" none
        = ConvState.mk [] [] :=
  ⟨(unknown_routing_keys_do_not_mutate (PanelState.mk [] []) (PanelPayload.mk "p1" "sol")
      (ConvState.mk [] []) "copilot_chat://1" none).1 rfl,
   (unknown_routing_keys_do_not_mutate (PanelState.mk [] []) (PanelPayload.mk "p1" "sol")
      (ConvState.mk [] []) "copilot_chat://1" none).2 (Or.inr rfl)⟩

/-- C6: after the done signal has cleared `is_waiting` for a panel session,
a subsequent `onSolution` for the same panel id still appends its item; the
done signal flips only the waiting flag and leaves the routing binding in
place. -/
theorem late_solution_after_done_appends (st : PanelState) (pid : String) (vid : Nat)
    (v : ViewPanelCompletionManager) (payload : PanelPayload)
    (hb : st.bindings.lookup pid = some vid)
    (hv : st.vcms.lookup vid = some v)
    (hpid : payload.panelId = pid) :
    ((handle_panel_solution_done_notification st pid).vcms.lookup vid).map
        (fun w => w.is_waiting) = some false
    ∧ (handle_panel_solution_done_notification st pid).bindings = st.bindings
    ∧ ((handle_panel_solution_notification
          (handle_panel_solution_done_notification st pid) payload).vcms.lookup vid).map
        (fun w => w.completions) = some (v.completions ++ [payload]) := by
  unfold handle_panel_solution_notification handle_panel_solution_done_notification
    find_view_by_panel_id
  rw [hpid, hb]
  simp [hb, lookup_update_assoc, hv]

/-- Witness for C6 at a concrete one-panel state. -/
theorem late_solution_after_done_appends_witness :
    ((handle_panel_solution_done_notification
        (PanelState.mk [("p1", 5)] [(5, ViewPanelCompletionManager.mk true [])])
        "p1").vcms.lookup 5).map (fun w => w.is_waiting) = some false
    ∧ (handle_panel_solution_done_notification
        (PanelState.mk [("p1", 5)] [(5, ViewPanelCompletionManager.mk true [])])
        "p1").bindings = [("p1", 5)]
    ∧ ((handle_panel_solution_notification
          (handle_panel_solution_done_notification
            (PanelState.mk [("p1", 5)] [(5, ViewPanelCompletionManager.mk true [])]) "p1")
          (PanelPayload.mk "p1" "C")).vcms.lookup 5).map
        (fun w => w.completions) = some [PanelPayload.mk "p1" "C"] :=
  late_solution_after_done_appends
    (PanelState.mk [("p1", 5)] [(5, ViewPanelCompletionManager.mk true [])])
    "p1" 5 (ViewPanelCompletionManager.mk true []) (PanelPayload.mk "p1" "C")
    rfl rfl rfl

/-- C1: when a cycling-completion response arrives and the view's live
single-selection region differs from the region recorded at issue time, the
handler re-triggers `request_get_completions` and the displayed completion
set is left untouched. -/
theorem stale_cycling_response_rerequests (st : DeliveryState) (r region : Int × Int)
    (completions : List String)
    (halive : st.session_alive = true) (hsel : st.sel = [r]) (hne : r ≠ region) :
    (on_get_completions st completions region).2 = CompletionsOutcome.re_request
    ∧ ((on_get_completions st completions region).1).shown = st.vcm.shown := by
  unfold on_get_completions
  rw [halive, hsel]
  simp [hne]

/-- Witness for C1 at a concrete state whose live selection moved from the
recorded region (0, 0) to (1, 1). -/
theorem stale_cycling_response_rerequests_witness :
    (on_get_completions (DeliveryState.mk (ViewCompletionManager.mk true none) true
        [((1 : Int), (1 : Int))]) ["c"] ((0 : Int), (0 : Int))).2
      = CompletionsOutcome.re_request
    ∧ ((on_get_completions (DeliveryState.mk (ViewCompletionManager.mk true none) true
        [((1 : Int), (1 : Int))]) ["c"] ((0 : Int), (0 : Int))).1).shown = none :=
  stale_cycling_response_rerequests
    (DeliveryState.mk (ViewCompletionManager.mk true none) true [((1 : Int), (1 : Int))])
    ((1 : Int), (1 : Int)) ((0 : Int), (0 : Int)) ["c"] rfl rfl (by decide)

/-- Counterexample to C2: in a one-window state, a progress payload with
kind `end` clears `is_waiting`, yet a subsequent progress notification for
the same token whose payload carries a reply still appends a conversation
turn — the handler never consults `is_waiting`. -/
theorem closed_token_reply_still_appends_cex :
    ((on_server_notification_async
        (ConvState.mk [("copilot_chat://1", 7)]
          [(7, WindowConversationManager.mk true "" [] "")])
        "copilot_chat://1"
        (some (ProgressPayload.mk (some "end") none none none))).wcms.lookup 7).map
        (fun w => w.is_waiting) = some false
    ∧ ((on_server_notification_async
        (on_server_notification_async
          (ConvState.mk [("copilot_chat://1", 7)]
            [(7, WindowConversationManager.mk true "" [] "")])
          "copilot_chat://1"
          (some (ProgressPayload.mk (some "end") none none none)))
        "copilot_chat://1"
        (some (ProgressPayload.mk none none (some "late reply") none))).wcms.lookup 7).map
        (fun w => w.conversation.length) = some 1 := by
  exact ⟨rfl, rfl⟩

/-- C2 as amended: the progress handler is waiting-flag-blind.  Whenever the
token still carries the conversation prefix and resolves to a bound window,
a payload with a truthy reply appends a conversation turn regardless of
`is_waiting`; in particular a late notification after the end signal still
mutates the session. -/
theorem progress_reply_appends_regardless_of_waiting (st : ConvState) (token : String)
    (wid : Nat) (w : WindowConversationManager) (p : ProgressPayload)
    (hpre : str_starts_with token "copilot_chat://" = true)
    (hb : find_window_by_token_id st token = some wid)
    (hw : st.wcms.lookup wid = some w)
    (hr : truthy p.reply = true) :
    ((on_server_notification_async st token (some p)).wcms.lookup wid).map
      (fun x => x.conversation) = some (w.conversation ++ [p]) := by
  unfold on_server_notification_async
  rw [hpre]
  simp only [if_pos, hb]
  simp [lookup_update_assoc, hw, apply_progress_conversation w p hr]

/-- Witness for the amended C2 at a concrete state whose session is already
closed (`is_waiting = false`): the late reply is still appended. -/
theorem progress_reply_appends_regardless_of_waiting_witness :
    ((on_server_notification_async
        (ConvState.mk [("copilot_chat://9", 3)]
          [(3, WindowConversationManager.mk false "t" [] "f")])
        "copilot_chat://9"
        (some (ProgressPayload.mk none none (some "r") none))).wcms.lookup 3).map
      (fun x => x.conversation) = some [ProgressPayload.mk none none (some "r") none] :=
  progress_reply_appends_regardless_of_waiting
    (ConvState.mk [("copilot_chat://9", 3)]
      [(3, WindowConversationManager.mk false "t" [] "f")])
    "copilot_chat://9" 3 (WindowConversationManager.mk false "t" [] "f")
    (ProgressPayload.mk none none (some "r") none) rfl rfl rfl rfl

/-- Counterexample to C3: a trigger that passes the view guard, with a
single selection, a live session and a preparable document, but whose
account gate fails (signed in, not authorized), sends no request — yet it
clears the displayed completion set, so user-visible completion state does
change. -/
theorem gate_failure_hides_display_cex :
    (request_get_completions
      (TriggerState.mk
        (ViewCompletionManager.mk false (some (CompletionSet.mk ["x"] 0)))
        true (AccountStatus.mk true false none) [((0 : Int), (0 : Int))]
        (some "doc"))).sent = []
    ∧ (request_get_completions
      (TriggerState.mk
        (ViewCompletionManager.mk false (some (CompletionSet.mk ["x"] 0)))
        true (AccountStatus.mk true false none) [((0 : Int), (0 : Int))]
        (some "doc"))).vcm.shown = none := by
  exact ⟨rfl, rfl⟩

/-- C3 as amended: when the account gate fails, the trigger sends no
protocol request, sets no waiting flag and starts no indicator — but it
does clear the displayed completion set first (the optimistic hide happens
before the gate check). -/
theorem gate_failure_sends_nothing_but_hides (st : TriggerState)
    (hgate : (st.account.has_signed_in && st.account.is_authorized) = false) :
    (request_get_completions st).sent = []
    ∧ (request_get_completions st).vcm
        = { st.vcm with shown := none }
    ∧ (request_get_completions st).vcm.is_waiting = st.vcm.is_waiting
    ∧ (request_get_completions st).indicator_started = false := by
  have hc : (st.session_alive && st.account.has_signed_in && st.account.is_authorized
      && (st.sel.length == 1)) = false := by
    cases hsi : st.account.has_signed_in <;> cases ha : st.account.is_authorized <;>
      simp_all
  constructor
  · simp [request_get_completions, request_completions, hc]
  constructor
  · simp [request_get_completions, request_completions, hc, ViewCompletionManager.hide]
  constructor
  · simp [request_get_completions, request_completions, hc, ViewCompletionManager.hide]
  · simp [request_get_completions, request_completions, hc]

/-- Witness for the amended C3 at a concrete signed-in-but-unauthorized
state. -/
theorem gate_failure_sends_nothing_but_hides_witness :
    (request_get_completions
      (TriggerState.mk
        (ViewCompletionManager.mk false (some (CompletionSet.mk ["x"] 0)))
        true (AccountStatus.mk true false none) [((0 : Int), (0 : Int))]
        (some "doc"))).sent = []
    ∧ (request_get_completions
      (TriggerState.mk
        (ViewCompletionManager.mk false (some (CompletionSet.mk ["x"] 0)))
        true (AccountStatus.mk true false none) [((0 : Int), (0 : Int))]
        (some "doc"))).vcm
        = ViewCompletionManager.mk false none
    ∧ (request_get_completions
      (TriggerState.mk
        (ViewCompletionManager.mk false (some (CompletionSet.mk ["x"] 0)))
        true (AccountStatus.mk true false none) [((0 : Int), (0 : Int))]
        (some "doc"))).vcm.is_waiting = false
    ∧ (request_get_completions
      (TriggerState.mk
        (ViewCompletionManager.mk false (some (CompletionSet.mk ["x"] 0)))
        true (AccountStatus.mk true false none) [((0 : Int), (0 : Int))]
        (some "doc"))).indicator_started = false :=
  gate_failure_sends_nothing_but_hides
    (TriggerState.mk
      (ViewCompletionManager.mk false (some (CompletionSet.mk ["x"] 0)))
      true (AccountStatus.mk true false none) [((0 : Int), (0 : Int))]
      (some "doc")) rfl

/-- Counterexample to C8: when `weaksession()` has been released, the
context-request handler returns before ever invoking `respond`, so zero —
not exactly one — respond invocations occur. -/
theorem dead_session_context_no_respond_cex :
    handle_conversation_context_request (ContextState.mk none [] []) "current-editor"
      = ([] : List (Option String)) := rfl

/-- C8 as amended: when the plugin still holds a live session, exactly one
respond invocation occurs — with the resolved context document when
`skillId == "current-editor"` and the window/view/document chain resolves,
and with null for any other skill id or when the chain fails; when the
session is gone, `respond` is not invoked at all. -/
theorem context_request_single_respond (st : ContextState) (sess : SessionInfo)
    (skillId : String) (h : st.session = some sess) :
    (handle_conversation_context_request st skillId).length = 1
    ∧ ((skillId == "current-editor") = false →
        handle_conversation_context_request st skillId = [none])
    ∧ (∀ d, (skillId == "current-editor") = true → resolve_context_doc st sess = some d →
        handle_conversation_context_request st skillId = [some d])
    ∧ ((skillId == "current-editor") = true → resolve_context_doc st sess = none →
        handle_conversation_context_request st skillId = [none]) := by
  unfold handle_conversation_context_request
  rw [h]
  cases hskill : (skillId == "current-editor") <;>
    cases hres : resolve_context_doc st sess <;> simp [hskill, hres]

/-- Witness for the amended C8 at a concrete live-session state whose chain
resolves a document. -/
theorem context_request_single_respond_witness :
    (handle_conversation_context_request
        (ContextState.mk (some (SessionInfo.mk (some 1))) [(1, 2)] [(2, some "ctx")])
        "current-editor").length = 1
    ∧ ((handle_conversation_context_request
        (ContextState.mk (some (SessionInfo.mk (some 1))) [(1, 2)] [(2, some "ctx")])
        "current-editor") = [some "ctx"]) :=
  ⟨(context_request_single_respond
      (ContextState.mk (some (SessionInfo.mk (some 1))) [(1, 2)] [(2, some "ctx")])
      (SessionInfo.mk (some 1)) "current-editor" rfl).1,
   (context_request_single_respond
      (ContextState.mk (some (SessionInfo.mk (some 1))) [(1, 2)] [(2, some "ctx")])
      (SessionInfo.mk (some 1)) "current-editor" rfl).2.2.1 "ctx" rfl rfl⟩

/-- C9: when the server binary already exists at the versioned path
(`needs_update_or_installation` is false), a further run of the install
pipeline performs no network fetch, deletes no directory and leaves the
binary path and its contents unchanged; consequently a second install right
after a successful one is a no-op. -/
theorem install_pipeline_idempotent_when_installed (fs : InstallFS) (c : String)
    (downloaded : Option String) (extract_ok : Bool) (h : fs.binary = some c) :
    host_install_pipeline fs downloaded extract_ok
        = InstallTrace.mk fs 0 0
    ∧ ∀ fs0 data, host_install_pipeline
        (host_install_pipeline fs0 (some data) true).fs downloaded extract_ok
        = InstallTrace.mk (host_install_pipeline fs0 (some data) true).fs 0 0 := by
  have base : ∀ (g : InstallFS) (c0 : String), g.binary = some c0 →
      host_install_pipeline g downloaded extract_ok = InstallTrace.mk g 0 0 := by
    intro g c0 hg
    unfold host_install_pipeline needs_update_or_installation
    rw [hg]
    rfl
  refine ⟨base fs c h, fun fs0 data => ?_⟩
  cases hb : fs0.binary with
  | none =>
    have hinner : host_install_pipeline fs0 (some data) true
        = InstallTrace.mk (InstallFS.mk (some data)) 1 1 := by
      unfold host_install_pipeline needs_update_or_installation install_or_update
      rw [hb]
      rfl
    rw [hinner]
    exact base (InstallFS.mk (some data)) data rfl
  | some c0 =>
    have hinner : host_install_pipeline fs0 (some data) true = InstallTrace.mk fs0 0 0 := by
      unfold host_install_pipeline needs_update_or_installation
      rw [hb]
      rfl
    rw [hinner]
    exact base fs0 c0 hb

/-- Witness for C9 at a concrete installed state. -/
theorem install_pipeline_idempotent_when_installed_witness :
    host_install_pipeline (InstallFS.mk (some "bin")) (some "new") true
        = InstallTrace.mk (InstallFS.mk (some "bin")) 0 0
    ∧ ∀ fs0 data, host_install_pipeline
        (host_install_pipeline fs0 (some data) true).fs (some "new") true
        = InstallTrace.mk (host_install_pipeline fs0 (some data) true).fs 0 0 :=
  install_pipeline_idempotent_when_installed (InstallFS.mk (some "bin")) "bin"
    (some "new") true rfl

/-- C10: an install run that fails at the network download or at extraction
leaves no binary at the expected final path: `install_server` always ends
with the path absent, and `install_or_update` — entered, per the host
contract, only when not installed — ends with the path absent too; in both
cases `needs_update_or_installation` reports not installed. -/
theorem failed_install_leaves_no_binary (fs : InstallFS) (downloaded : Option String)
    (extract_ok : Bool) (h : downloaded = none ∨ extract_ok = false) :
    (install_server fs downloaded extract_ok).fs.binary = none
    ∧ needs_update_or_installation (install_server fs downloaded extract_ok).fs = true
    ∧ (fs.binary = none →
        (install_or_update fs downloaded extract_ok).fs.binary = none
        ∧ needs_update_or_installation (install_or_update fs downloaded extract_ok).fs
            = true) := by
  rcases h with h | h
  · subst h
    refine ⟨rfl, rfl, fun hb => ?_⟩
    simp [install_or_update, needs_update_or_installation, hb]
  · subst h
    cases downloaded with
    | none => exact ⟨rfl, rfl, fun hb => by
        simp [install_or_update, needs_update_or_installation, hb]⟩
    | some data => exact ⟨rfl, rfl, fun hb => ⟨rfl, rfl⟩⟩

/-- Witness for C10 at a concrete failed download over a previously
installed state, and a concrete failed extraction from a clean state. -/
theorem failed_install_leaves_no_binary_witness :
    (install_server (InstallFS.mk (some "old")) none true).fs.binary = none
    ∧ (install_or_update (InstallFS.mk none) (some "data") false).fs.binary = none :=
  ⟨(failed_install_leaves_no_binary (InstallFS.mk (some "old")) none true (Or.inl rfl)).1,
   ((failed_install_leaves_no_binary (InstallFS.mk none) (some "data") false
      (Or.inr rfl)).2.2 rfl).1⟩
